import Mathlib

/-!
Shallow embedding of `src/pandas_genomics/simulation.py`.

Numeric model: the source computes with numpy float64 arrays.  We embed the
arithmetic exactly over `ℚ` and keep the IEEE-754 special values that matter
for this module's behaviour (division by zero producing `nan`/`±inf`, and
their propagation) in an explicit value type `FV`.  Rounding and overflow of
finite values are abstracted away (exact real arithmetic), which is the
standard abstraction level for the numerical statements of the spec.
-/

namespace PandasGenomics

/-- An IEEE-754-style scalar: a finite value (exact rational), `+inf`, `-inf`,
or `nan`.  Signed zero is not distinguished (the source never branches on it). -/
inductive FV where
  | fin : ℚ → FV
  | pinf : FV
  | ninf : FV
  | nan : FV
deriving DecidableEq, Repr

/-- IEEE addition on `FV` (exact on finite values). -/
def fvAdd : FV → FV → FV
  | .fin a, .fin b => .fin (a + b)
  | .nan, _ => .nan
  | _, .nan => .nan
  | .pinf, .ninf => .nan
  | .ninf, .pinf => .nan
  | .pinf, _ => .pinf
  | _, .pinf => .pinf
  | .ninf, _ => .ninf
  | _, .ninf => .ninf

/-- IEEE subtraction on `FV` (exact on finite values). -/
def fvSub : FV → FV → FV
  | .fin a, .fin b => .fin (a - b)
  | .nan, _ => .nan
  | _, .nan => .nan
  | .pinf, .pinf => .nan
  | .ninf, .ninf => .nan
  | .pinf, _ => .pinf
  | _, .pinf => .ninf
  | .ninf, _ => .ninf
  | _, .ninf => .pinf

/-- IEEE multiplication on `FV` (exact on finite values); `inf * 0 = nan`. -/
def fvMul : FV → FV → FV
  | .fin a, .fin b => .fin (a * b)
  | .nan, _ => .nan
  | _, .nan => .nan
  | .pinf, .pinf => .pinf
  | .ninf, .ninf => .pinf
  | .pinf, .ninf => .ninf
  | .ninf, .pinf => .ninf
  | .pinf, .fin a => if a = 0 then .nan else if 0 < a then .pinf else .ninf
  | .fin a, .pinf => if a = 0 then .nan else if 0 < a then .pinf else .ninf
  | .ninf, .fin a => if a = 0 then .nan else if 0 < a then .ninf else .pinf
  | .fin a, .ninf => if a = 0 then .nan else if 0 < a then .ninf else .pinf

/-- IEEE division on `FV`: `0/0 = nan`, `x/0 = ±inf` for finite `x ≠ 0`,
`x/±inf = 0` for finite `x`, `±inf/±inf = nan`; exact on finite values with a
nonzero divisor. -/
def fvDiv : FV → FV → FV
  | .fin a, .fin b =>
      if b = 0 then (if a = 0 then .nan else if 0 < a then .pinf else .ninf)
      else .fin (a / b)
  | .nan, _ => .nan
  | _, .nan => .nan
  | .pinf, .fin b => if 0 ≤ b then .pinf else .ninf
  | .ninf, .fin b => if 0 ≤ b then .ninf else .pinf
  | .fin _, .pinf => .fin 0
  | .fin _, .ninf => .fin 0
  | .pinf, .pinf => .nan
  | .pinf, .ninf => .nan
  | .ninf, .pinf => .nan
  | .ninf, .ninf => .nan

end PandasGenomics

namespace PandasGenomics

set_option linter.unusedVariables false

/-- Modelled from the spec: the external `Variant` collaborator
(`pandas_genomics.scalars`, not under `src/`): "identifier string, reference
allele string, ordered sequence of alternate alleles", constructible from
those three fields. -/
structure Variant where
  id : String
  ref : String
  alt : List String
deriving DecidableEq, Repr

/-- Python exceptions the module raises: `ValueError` (explicit `raise` in the
source) and `TypeError` (raised by the misused pandas `concat` call). -/
inductive SimError where
  | valueError (msg : String)
  | typeError (msg : String)
deriving DecidableEq, Repr

/-- The enum `SNPEffectEncodings` (simulation.py lines 15-22): normalized SNP effects
as 3-length tuples. -/
def DOMINANT : Fin 3 → ℚ := ![0, 1, 1]

def SUPER_ADDITIVE : Fin 3 → ℚ := ![0, 3/4, 1]

def ADDITIVE : Fin 3 → ℚ := ![0, 1/2, 1]

def SUB_ADDITIVE : Fin 3 → ℚ := ![0, 1/4, 1]

def RECESSIVE : Fin 3 → ℚ := ![0, 0, 1]

def HET : Fin 3 → ℚ := ![0, 1, 0]

/-- Executable minimum of two rationals (numpy minimum on finite floats). -/
def qmin (a b : ℚ) : ℚ := if a ≤ b then a else b

/-- Executable maximum of two rationals (numpy maximum on finite floats). -/
def qmax (a b : ℚ) : ℚ := if b ≤ a then a else b

/-- Executable absolute value of a rational. -/
def qabs (q : ℚ) : ℚ := if q < 0 then -q else q

/-- numpy `.min()` of a 3-vector. -/
def rowMin (v : Fin 3 → ℚ) : ℚ := qmin (qmin (v 0) (v 1)) (v 2)

/-- numpy `.max()` of a 3-vector. -/
def rowMax (v : Fin 3 → ℚ) : ℚ := qmax (qmax (v 0) (v 1)) (v 2)

/-- numpy `.min()` of a 3x3 table. -/
def matMin (t : Fin 3 → Fin 3 → ℚ) : ℚ :=
  qmin (qmin (rowMin (t 0)) (rowMin (t 1))) (rowMin (t 2))

/-- numpy `.max()` of a 3x3 table. -/
def matMax (t : Fin 3 → Fin 3 → ℚ) : ℚ :=
  qmax (qmax (rowMax (t 0)) (rowMax (t 1))) (rowMax (t 2))

/-- Lines 126-131 of `from_model`: `if eff.min() != 0 or eff.max() != 1:` rescale
`(eff - eff.min()) / (eff.max() - eff.min())`, else use the effect unchanged.
Division is IEEE division (`FV`): an all-equal effect vector has zero range. -/
def normalizeEff (e : Fin 3 → ℚ) : Fin 3 → FV :=
  if rowMin e ≠ 0 ∨ rowMax e ≠ 1 then
    fun i => fvDiv (.fin (e i - rowMin e)) (.fin (rowMax e - rowMin e))
  else
    fun i => .fin (e i)

/-- Lines 133-136 of `from_model`: the penetrance table
`baseline + main1*repeat(eff1) + main2*repeat(eff2) + interaction*outer(eff2, eff1)`
with `eff1` varying across columns (axis-0 repeat of the row vector) and
`eff2` across rows. -/
def from_model_pen_table (eff1 eff2 : Fin 3 → ℚ)
    (baseline main1 main2 interaction : ℚ) : Fin 3 → Fin 3 → FV :=
  let e1 := normalizeEff eff1
  let e2 := normalizeEff eff2
  fun r c =>
    fvAdd
      (fvAdd (fvAdd (.fin baseline) (fvMul (.fin main1) (e1 c)))
        (fvMul (.fin main2) (e2 r)))
      (fvMul (.fin interaction) (fvMul (e2 r) (e1 c)))

/-- numpy shape check of `_validate_params`: a nested-list table has shape
(3, 3) exactly when it has 3 rows each of length 3. -/
def shape33 (t : List (List ℚ)) : Bool :=
  t.length = 3 && t.all (fun row => row.length = 3)

/-- Line 61 of `_validate_params`: the default SNP1. -/
def default_snp1 : Variant := ⟨"rs1", "A", ["a"]⟩

/-- Line 63 of `_validate_params`: the default SNP2. -/
def default_snp2 : Variant := ⟨"rs2", "B", ["b"]⟩

/-- The validation `BialleleicSimulation._validate_params` (lines 53-70): reject a table
whose shape is not 3x3; synthesize default variants when none are supplied;
reject a variant whose alternate-allele list has length other than 1.
(The Python f-string renders the whole variant through the external scalars
collaborator; the message is modelled with the variant id.) -/
def validate_params (pen_table : List (List ℚ)) (snp1 snp2 : Option Variant) :
    Except SimError (List (List ℚ) × Variant × Variant) :=
  if shape33 pen_table = false then
    .error (.valueError "Incorrect shape for pen_table, must be 3x3")
  else
    let s1 := snp1.getD default_snp1
    let s2 := snp2.getD default_snp2
    if s1.alt.length ≠ 1 then
      .error (.valueError ("SNP1 is not Bialleleic: " ++ s1.id))
    else if s2.alt.length ≠ 1 then
      .error (.valueError ("SNP2 is not Bialleleic: " ++ s2.id))
    else
      .ok (pen_table, s1, s2)

/-- The configuration object (`BialleleicSimulation.__init__`, lines 29-38):
a validated penetrance table, two variants and the stored random seed. -/
structure BialleleicSimulation where
  pen_table : Fin 3 → Fin 3 → ℚ
  snp1 : Variant
  snp2 : Variant
  random_seed : ℤ

/-- The default penetrance table of `__init__` (line 30). -/
def default_pen_table : Fin 3 → Fin 3 → ℚ := ![![0, 0, 1], ![0, 0, 1], ![1, 1, 2]]

/-- A `BialleleicSimulation()` built with every default argument. -/
def default_sim : BialleleicSimulation :=
  ⟨default_pen_table, default_snp1, default_snp2, 1855⟩

/-- Line 176 of `generate_case_control`: `min_p = 0.01`. -/
def min_p : ℚ := 1 / 100

/-- Line 177: `p_diff = 1 - (2 * min_p)`. -/
def p_diff : ℚ := 1 - 2 * min_p

/-- Step 1 of `generate_case_control` (lines 169-178): map the raw table by
`(t - t.min()) / (t.max() - t.min())`, then `min_p + t * p_diff`, in IEEE
arithmetic (a constant table gives `0/0 = nan` in every cell). -/
def rescaleStep (t : Fin 3 → Fin 3 → ℚ) : Fin 3 → Fin 3 → FV := fun r c =>
  fvAdd (.fin min_p)
    (fvMul (fvDiv (.fin (t r c - matMin t)) (.fin (matMax t - matMin t)))
      (.fin p_diff))

/-- Lines 185-186: Hardy-Weinberg genotype probabilities for one locus. -/
def hweProbs (maf : ℚ) : Fin 3 → ℚ := ![(1 - maf) ^ 2, 2 * maf * (1 - maf), maf ^ 2]

/-- Line 187: `prob_gt = np.outer(prob_snp2, prob_snp1)` (SNP2 as rows). -/
def prob_gt (maf1 maf2 : ℚ) : Fin 3 → Fin 3 → ℚ := fun r c =>
  hweProbs maf2 r * hweProbs maf1 c

/-- numpy `.sum()` over the 9 cells of a 3x3 IEEE table. -/
def fvSum9 (f : Fin 3 → Fin 3 → FV) : FV :=
  fvAdd (fvAdd (fvAdd (fvAdd (fvAdd (fvAdd (fvAdd (fvAdd
    (f 0 0) (f 0 1)) (f 0 2)) (f 1 0)) (f 1 1)) (f 1 2)) (f 2 0)) (f 2 1)) (f 2 2)

/-- Line 191: `prob_case = (pen_table*prob_gt).sum()`. -/
def prob_case (pen : Fin 3 → Fin 3 → FV) (pg : Fin 3 → Fin 3 → ℚ) : FV :=
  fvSum9 (fun r c => fvMul (pen r c) (.fin (pg r c)))

/-- Line 193: `prob_gt_given_case = (pen_table * prob_gt) / prob_case`, an
unguarded IEEE division. -/
def prob_gt_given_case (pen : Fin 3 → Fin 3 → FV) (pg : Fin 3 → Fin 3 → ℚ) :
    Fin 3 → Fin 3 → FV := fun r c =>
  fvDiv (fvMul (pen r c) (.fin (pg r c))) (prob_case pen pg)

/-- Line 197: `prob_control = ((1-pen_table) * prob_gt).sum()`. -/
def prob_control (pen : Fin 3 → Fin 3 → FV) (pg : Fin 3 → Fin 3 → ℚ) : FV :=
  fvSum9 (fun r c => fvMul (fvSub (.fin 1) (pen r c)) (.fin (pg r c)))

/-- Line 199: `prob_gt_given_control = ((1-pen_table) * prob_gt) / prob_control`. -/
def prob_gt_given_control (pen : Fin 3 → Fin 3 → FV) (pg : Fin 3 → Fin 3 → ℚ) :
    Fin 3 → Fin 3 → FV := fun r c =>
  fvDiv (fvMul (fvSub (.fin 1) (pen r c)) (.fin (pg r c))) (prob_control pen pg)

/-- Row-major `.flatten()` of a 3x3 table (line 204's index convention). -/
def flattenP (f : Fin 3 → Fin 3 → FV) : Fin 9 → FV := fun i =>
  f ⟨i.val / 3, by have := i.isLt; omega⟩ ⟨i.val % 3, by have := i.isLt; omega⟩

end PandasGenomics

namespace PandasGenomics

set_option linter.unusedVariables false

/-- A genotype call: an unordered allele-index pair.  The `np.nan` per-call
score placeholder of lines 209-210 carries no information and is dropped. -/
abbrev Genotype := ℕ × ℕ

/-- Modelled from the spec: the external columnar genotype container
(`pandas_genomics.arrays`, not under `src/`), "built from raw genotype-call
tuples" and "keyed by a variant's dtype". -/
structure GenotypeArray where
  data : List Genotype
  variant : Variant
deriving DecidableEq, Repr

/-- Line 209: `gt_data_snp1 = [((0, 0), nan), ((0, 1), nan), ((1, 1), nan)]*3`
(SNP1 varies by column of the flattened table). -/
def gt_data_snp1 : List Genotype :=
  [(0, 0), (0, 1), (1, 1), (0, 0), (0, 1), (1, 1), (0, 0), (0, 1), (1, 1)]

/-- Line 210: `gt_data_snp2 = [((0, 0),)]*3 + [((0, 1),)]*3 + [((1, 1),)]*3`
(SNP2 varies by row of the flattened table). -/
def gt_data_snp2 : List Genotype :=
  [(0, 0), (0, 0), (0, 0), (0, 1), (0, 1), (0, 1), (1, 1), (1, 1), (1, 1)]

/-- Function `_get_gt_array` (lines 237-241): assemble a `GenotypeArray` by
looking each drawn flat index up in the flattened genotype table. -/
def get_gt_array (gt_table_idxs : List (Fin 9)) (gt_table_data : List Genotype)
    (var : Variant) : GenotypeArray :=
  ⟨gt_table_idxs.map (fun i => gt_table_data.getD i.val (0, 0)), var⟩

/-- Tolerance numpy's `choice` uses for the sum-to-1 check:
`sqrt(finfo(float64).eps) = 2 ^ (-26)`. -/
def atol : ℚ := 1 / 2 ^ 26

/-- Negativity as numpy's `p < 0` elementwise comparison sees it: `nan < 0`
is false. -/
def fvIsNeg : FV → Bool
  | .fin q => decide (q < 0)
  | .ninf => true
  | _ => false

/-- The check `abs(sum(p) - 1) > atol` as IEEE comparison sees it: false when
the sum is `nan` (a NaN comparison is false), true for an infinite sum. -/
def fvSumFarFromOne : FV → Bool
  | .fin s => decide (atol < qabs (s - 1))
  | .pinf => true
  | .ninf => true
  | .nan => false

/-- Sum of the 9 flattened weights. -/
def fvSumFlat (p : Fin 9 → FV) : FV :=
  ((List.finRange 9).map p).foldl fvAdd (.fin 0)

/-- Validation numpy's `np.random.choice(range(9), size=n, p=p)` performs on
`p` before drawing: raise `ValueError` when some entry is negative, then when
`abs(sum(p) - 1) > atol`.  NaN entries pass both comparisons silently. -/
def np_choice_check (p : Fin 9 → FV) : Except SimError Unit :=
  if (List.finRange 9).any (fun i => fvIsNeg (p i)) then
    .error (.valueError "probabilities are not non-negative")
  else if fvSumFarFromOne (fvSumFlat p) then
    .error (.valueError "probabilities do not sum to 1")
  else
    .ok ()

/-- Shallow model of `np.random.choice(range(9), size=n, p=p)` (lines
205-206): after numpy's validation of `p`, the stochastic draw from the
process-wide generator is an oracle `draw` supplied explicitly. -/
def np_random_choice (p : Fin 9 → FV) (n : ℕ)
    (draw : (Fin 9 → FV) → ℕ → List (Fin 9)) : Except SimError (List (Fin 9)) :=
  match np_choice_check p with
  | .error e => .error e
  | .ok _ => .ok (draw p n)

/-- The call `pd.concat(snp1_case_array, snp1_control_array)` of line 220.
pandas' `concat(objs, axis=0, ...)` takes an iterable of Series/DataFrame
objects as its first parameter and `axis` as its second positional parameter;
handed a `GenotypeArray`, it iterates it into genotype scalars and raises
`TypeError` ("cannot concatenate object of type ...; only Series and DataFrame
objs are valid").  Modelled as that unconditional error. -/
def pd_concat_two (a b : GenotypeArray) : Except SimError GenotypeArray :=
  .error (.typeError "cannot concatenate object of type Genotype; only Series and DataFrame objs are valid")

/-- Line 223: `pd.Series(["Case"]*n_cases + ["Control"]*n_controls)`. -/
def outcome_base (n_cases n_controls : ℕ) : List String :=
  List.replicate n_cases "Case" ++ List.replicate n_controls "Control"

/-- Lines 223-226: the outcome pipeline `.astype("category").sample(frac=1)
.reset_index(drop=True)`.  The random row order `.sample(frac=1)` takes from
the process-wide generator is the explicit `order` argument; the pipeline
reads nothing but the outcome series. -/
def outcome_series (n_cases n_controls : ℕ) (order : List ℕ) : List String :=
  order.map (fun i => (outcome_base n_cases n_controls).getD i "")

/-- The tabular value the docstring of `generate_case_control` promises:
three aligned columns. -/
structure DataFrame where
  outcome : List String
  snp1 : GenotypeArray
  snp2 : GenotypeArray
deriving DecidableEq, Repr

/-- Method `generate_case_control` (lines 140-226), translated line by line.
Randomness (the process-wide numpy generator) enters as the two oracles
`draw` (for `np.random.choice`) and `order` (for `.sample(frac=1)`); the
stored `random_seed` is whatever the configuration holds.  The Python body
has no `return` statement, so normal completion is `.ok none`; a returned
table would be `.ok (some df)`. -/
def generate_case_control (sim : BialleleicSimulation)
    (draw : (Fin 9 → FV) → ℕ → List (Fin 9)) (order : ℕ → List ℕ)
    (n_cases n_controls : ℤ) (maf1 maf2 : ℚ) :
    Except SimError (Option DataFrame) :=
  if n_cases < 1 ∨ n_controls < 0 then
    .error (.valueError "Simulation must include at least one case and at least one control")
  else
    let pen := rescaleStep sim.pen_table
    let pg := prob_gt maf1 maf2
    match np_random_choice (flattenP (prob_gt_given_case pen pg)) n_cases.toNat draw with
    | .error e => .error e
    | .ok case_gt_table_idxs =>
      match np_random_choice (flattenP (prob_gt_given_control pen pg)) n_controls.toNat draw with
      | .error e => .error e
      | .ok control_gt_table_idxs =>
        let snp1_case_array := get_gt_array case_gt_table_idxs gt_data_snp1 sim.snp1
        let snp2_case_array := get_gt_array case_gt_table_idxs gt_data_snp2 sim.snp2
        let snp1_control_array := get_gt_array control_gt_table_idxs gt_data_snp1 sim.snp1
        let snp2_control_array := get_gt_array control_gt_table_idxs gt_data_snp2 sim.snp2
        match pd_concat_two snp1_case_array snp1_control_array with
        | .error e => .error e
        | .ok _ =>
          let outcome := outcome_series n_cases.toNat n_controls.toNat
            (order (n_cases.toNat + n_controls.toNat))
          .ok none

end PandasGenomics

namespace PandasGenomics

@[simp] theorem fvAdd_fin (a b : ℚ) : fvAdd (.fin a) (.fin b) = .fin (a + b) := rfl

@[simp] theorem fvSub_fin (a b : ℚ) : fvSub (.fin a) (.fin b) = .fin (a - b) := rfl

@[simp] theorem fvMul_fin (a b : ℚ) : fvMul (.fin a) (.fin b) = .fin (a * b) := rfl

@[simp] theorem fvAdd_fin_nan (a : ℚ) : fvAdd (.fin a) .nan = .nan := rfl

@[simp] theorem fvMul_nan_fin (a : ℚ) : fvMul .nan (.fin a) = .nan := rfl

@[simp] theorem fvMul_nan_left (x : FV) : fvMul .nan x = .nan := by
  cases x <;> rfl

@[simp] theorem fvDiv_nan_left (x : FV) : fvDiv .nan x = .nan := by
  cases x <;> rfl

theorem fvDiv_fin_of_ne (a b : ℚ) (hb : b ≠ 0) :
    fvDiv (.fin a) (.fin b) = .fin (a / b) := by
  simp [fvDiv, hb]

@[simp] theorem fvDiv_zero_zero : fvDiv (.fin 0) (.fin 0) = .nan := by
  simp [fvDiv]

end PandasGenomics

namespace PandasGenomics

/-- A raw penetrance table (min 1/100, max 99/100, so Step-1's rescale maps it
to itself) tuned so that with `maf1 = 2` and `maf2 = 0` — values the argument
check never examines — the aggregate `prob_case` is exactly zero:
`99/100 - 4 * (103/400) + 4 * (1/100) = 0`. -/
def zero_prob_case_table : Fin 3 → Fin 3 → ℚ := fun r c =>
  if r = 0 then (if c = 0 then 99/100 else if c = 1 then 103/400 else 1/100)
  else 103/400

end PandasGenomics

namespace PandasGenomics

theorem qmin_eq_min (a b : ℚ) : qmin a b = min a b := by
  unfold qmin; split
  · exact (min_eq_left (by assumption)).symm
  · exact (min_eq_right (le_of_lt (lt_of_not_le (by assumption)))).symm

theorem qmax_eq_max (a b : ℚ) : qmax a b = max a b := by
  unfold qmax; split
  · exact (max_eq_left (by assumption)).symm
  · exact (max_eq_right (le_of_lt (lt_of_not_le (by assumption)))).symm

theorem qabs_eq_abs (q : ℚ) : qabs q = |q| := by
  unfold qabs; split
  · exact (abs_of_neg (by assumption)).symm
  · exact (abs_of_nonneg (le_of_not_lt (by assumption))).symm

@[simp] theorem fvAdd_nan_left (x : FV) : fvAdd .nan x = .nan := by
  cases x <;> rfl

@[simp] theorem fvAdd_nan_right (x : FV) : fvAdd x .nan = .nan := by
  cases x <;> rfl

theorem rowMin_le (v : Fin 3 → ℚ) (i : Fin 3) : rowMin v ≤ v i := by
  simp only [rowMin, qmin_eq_min]
  fin_cases i
  · exact le_trans (min_le_left _ _) (min_le_left _ _)
  · exact le_trans (min_le_left _ _) (min_le_right _ _)
  · exact min_le_right _ _

theorem le_rowMax (v : Fin 3 → ℚ) (i : Fin 3) : v i ≤ rowMax v := by
  simp only [rowMax, qmax_eq_max]
  fin_cases i
  · exact le_trans (le_max_left _ _) (le_max_left _ _)
  · exact le_trans (le_max_right _ _) (le_max_left _ _)
  · exact le_max_right _ _

theorem matMin_le (t : Fin 3 → Fin 3 → ℚ) (r c : Fin 3) : matMin t ≤ t r c := by
  have h : matMin t ≤ rowMin (t r) := by
    simp only [matMin, qmin_eq_min]
    fin_cases r
    · exact le_trans (min_le_left _ _) (min_le_left _ _)
    · exact le_trans (min_le_left _ _) (min_le_right _ _)
    · exact min_le_right _ _
  exact le_trans h (rowMin_le (t r) c)

theorem le_matMax (t : Fin 3 → Fin 3 → ℚ) (r c : Fin 3) : t r c ≤ matMax t := by
  have h : rowMax (t r) ≤ matMax t := by
    simp only [matMax, qmax_eq_max]
    fin_cases r
    · exact le_trans (le_max_left _ _) (le_max_left _ _)
    · exact le_trans (le_max_right _ _) (le_max_left _ _)
    · exact le_max_right _ _
  exact le_trans (le_rowMax (t r) c) h

end PandasGenomics

namespace PandasGenomics

/-- C3: refuted evidence for the determinism claim.  The configuration's
stored `random_seed` is never read by `generate_case_control` (the source
never calls `np.random.seed`): two configurations that differ only in their
stored seed produce literally the same computation, so the stored seed does
not determine the draws — they depend only on the ambient process-wide
generator state (here the explicit `draw`/`order` oracles). -/
theorem generate_case_control_ignores_stored_seed
    (t : Fin 3 → Fin 3 → ℚ) (s1 s2 : Variant) (seed1 seed2 : ℤ)
    (draw : (Fin 9 → FV) → ℕ → List (Fin 9)) (order : ℕ → List ℕ)
    (n_cases n_controls : ℤ) (maf1 maf2 : ℚ) :
    generate_case_control ⟨t, s1, s2, seed1⟩ draw order n_cases n_controls maf1 maf2 =
      generate_case_control ⟨t, s1, s2, seed2⟩ draw order n_cases n_controls maf1 maf2 := rfl

/-- C1: `generate_case_control` never returns a table.  Every execution path
ends in a raised exception: the precondition `ValueError`, a `ValueError`
from `np.random.choice`'s validation, or the unconditional `TypeError` of the
misused `pd.concat(snp1_case_array, snp1_control_array)` call (line 220,
before the `TODO: Finish` assembly); and the body has no `return` statement,
so even a completing run would yield `None`, not a 3-column dataframe. -/
theorem generate_case_control_always_raises (sim : BialleleicSimulation)
    (draw : (Fin 9 → FV) → ℕ → List (Fin 9)) (order : ℕ → List ℕ)
    (n_cases n_controls : ℤ) (maf1 maf2 : ℚ) :
    ∃ e, generate_case_control sim draw order n_cases n_controls maf1 maf2 =
      .error e := by
  simp only [generate_case_control]
  split
  · exact ⟨_, rfl⟩
  · split
    · exact ⟨_, rfl⟩
    · split
      · exact ⟨_, rfl⟩
      · exact ⟨_, rfl⟩

end PandasGenomics

namespace PandasGenomics

/-- C4: for normalized effect vectors (min 0, max 1) and any coefficients,
the `from_model` table satisfies
`table[r][c] = baseline + main1*eff1[c] + main2*eff2[r] + interaction*eff2[r]*eff1[c]`,
with `eff1` varying across columns and `eff2` across rows. -/
theorem from_model_pen_table_formula (eff1 eff2 : Fin 3 → ℚ)
    (baseline main1 main2 interaction : ℚ)
    (h1 : rowMin eff1 = 0) (h2 : rowMax eff1 = 1)
    (h3 : rowMin eff2 = 0) (h4 : rowMax eff2 = 1) (r c : Fin 3) :
    from_model_pen_table eff1 eff2 baseline main1 main2 interaction r c =
      .fin (baseline + main1 * eff1 c + main2 * eff2 r +
        interaction * (eff2 r * eff1 c)) := by
  simp [from_model_pen_table, normalizeEff, h1, h2, h3, h4]

/-- Witness for C4 at the ADDITIVE encoding, `baseline=1/10`, `main1=2`,
`main2=3`, `interaction=1/2`, cell `(1,2)`. -/
theorem from_model_pen_table_formula_witness :
    rowMin ADDITIVE = 0 ∧ rowMax ADDITIVE = 1 ∧
    from_model_pen_table ADDITIVE ADDITIVE (1/10) 2 3 (1/2) 1 2 =
      .fin (1/10 + 2 * ADDITIVE 2 + 3 * ADDITIVE 1 + 1/2 * (ADDITIVE 1 * ADDITIVE 2)) :=
  ⟨by norm_num [rowMin, ADDITIVE, qmin],
   by norm_num [rowMax, ADDITIVE, qmax],
   from_model_pen_table_formula ADDITIVE ADDITIVE (1/10) 2 3 (1/2)
     (by norm_num [rowMin, ADDITIVE, qmin]) (by norm_num [rowMax, ADDITIVE, qmax])
     (by norm_num [rowMin, ADDITIVE, qmin]) (by norm_num [rowMax, ADDITIVE, qmax]) 1 2⟩

/-- C5 counterexample: the all-equal effect vector `(1/2, 1/2, 1/2)` is not
"explicitly handled" — the rescale branch runs (its min is not 0), divides by
the zero range `max - min = 0`, and every entry becomes IEEE `0/0 = nan`. -/
theorem normalizeEff_all_equal_nan :
    normalizeEff (fun _ => (1/2 : ℚ)) 0 = FV.nan ∧
    normalizeEff (fun _ => (1/2 : ℚ)) 1 = FV.nan ∧
    normalizeEff (fun _ => (1/2 : ℚ)) 2 = FV.nan := by
  refine ⟨?_, ?_, ?_⟩ <;>
    norm_num [normalizeEff, rowMin, rowMax, qmin, qmax, fvDiv]

/-- C5 (amended): for an effect vector with min distinct from max, the
rescale branch (taken exactly when min is not 0 or max is not 1) yields
finite values `(eff - min)/(max - min)` with minimum exactly 0 and maximum
exactly 1, and a vector already normalized is used unchanged; in the
all-equal case (min = max) the branch still runs and the zero-range division
makes every entry NaN — the degenerate case is not explicitly handled. -/
theorem normalizeEff_spec (e : Fin 3 → ℚ) :
    (rowMin e ≠ rowMax e →
      ∃ f : Fin 3 → ℚ,
        (∀ i, normalizeEff e i = .fin (f i)) ∧
        rowMin f = 0 ∧ rowMax f = 1 ∧
        ((rowMin e = 0 ∧ rowMax e = 1) → f = e) ∧
        ((rowMin e ≠ 0 ∨ rowMax e ≠ 1) →
          ∀ i, f i = (e i - rowMin e) / (rowMax e - rowMin e))) ∧
    (rowMin e = rowMax e → ∀ i, normalizeEff e i = FV.nan) := by
  constructor
  · intro h
    by_cases hb : rowMin e ≠ 0 ∨ rowMax e ≠ 1
    · have hle : rowMin e ≤ rowMax e := le_trans (rowMin_le e 0) (le_rowMax e 0)
      have hlt : rowMin e < rowMax e := lt_of_le_of_ne hle h
      have hc0 : (0 : ℚ) ≤ rowMax e - rowMin e := by linarith
      have hcne : rowMax e - rowMin e ≠ 0 := by
        intro hz; apply h; linarith
      refine ⟨fun i => (e i - rowMin e) / (rowMax e - rowMin e), ?_, ?_, ?_, ?_, ?_⟩
      · intro i
        rw [normalizeEff, if_pos hb, fvDiv_fin_of_ne _ _ hcne]
      · revert hc0
        generalize rowMax e - rowMin e = d
        intro hc0
        simp only [rowMin, qmin_eq_min]
        rw [min_div_div_right hc0, min_div_div_right hc0, min_sub_sub_right,
          min_sub_sub_right, sub_self, zero_div]
      · revert hc0 hcne
        generalize hgc : rowMax e - rowMin e = d
        intro hc0 hcne
        simp only [rowMax, qmax_eq_max] at hgc ⊢
        rw [max_div_div_right hc0, max_div_div_right hc0, max_sub_sub_right,
          max_sub_sub_right, hgc]
        exact div_self hcne
      · rintro ⟨h0, h1⟩
        rcases hb with hb | hb
        · exact absurd h0 hb
        · exact absurd h1 hb
      · intro _ i; rfl
    · push_neg at hb
      refine ⟨e, ?_, hb.1, hb.2, fun _ => rfl, ?_⟩
      · intro i
        rw [normalizeEff, if_neg]
        push_neg
        exact hb
      · intro hcontra
        rcases hcontra with hc | hc
        · exact absurd hb.1 hc
        · exact absurd hb.2 hc
  · intro h i
    have hb : rowMin e ≠ 0 ∨ rowMax e ≠ 1 := by
      by_contra hcon
      push_neg at hcon
      rw [hcon.1, hcon.2] at h
      norm_num at h
    have hei : e i = rowMin e :=
      le_antisymm (h ▸ le_rowMax e i) (rowMin_le e i)
    rw [normalizeEff, if_pos hb, hei, sub_self, ← h, sub_self, fvDiv_zero_zero]

/-- C6: for a penetrance table whose min differs from its max, every cell of
the Step-1 rescale is finite and lies in `[0.01, 0.99]`; cells attaining the
original minimum map to exactly `0.01` and cells attaining the original
maximum to exactly `0.99` (`min_p` fixed at `0.01`). -/
theorem rescaleStep_bounds (t : Fin 3 → Fin 3 → ℚ) (h : matMin t ≠ matMax t) :
    ∀ r c, ∃ q : ℚ,
      rescaleStep t r c = .fin q ∧
      1/100 ≤ q ∧ q ≤ 99/100 ∧
      (t r c = matMin t → q = 1/100) ∧
      (t r c = matMax t → q = 99/100) := by
  intro r c
  have hm : matMin t ≤ t r c := matMin_le t r c
  have hM : t r c ≤ matMax t := le_matMax t r c
  have hlt : matMin t < matMax t := lt_of_le_of_ne (le_trans hm hM) h
  have hc : (0 : ℚ) < matMax t - matMin t := by linarith
  have hcne : matMax t - matMin t ≠ 0 := ne_of_gt hc
  have hx0 : 0 ≤ (t r c - matMin t) / (matMax t - matMin t) :=
    div_nonneg (by linarith) (le_of_lt hc)
  have hx1 : (t r c - matMin t) / (matMax t - matMin t) ≤ 1 := by
    rw [div_le_one hc]; linarith
  refine ⟨min_p + ((t r c - matMin t) / (matMax t - matMin t)) * p_diff,
    ?_, ?_, ?_, ?_, ?_⟩
  · rw [rescaleStep, fvDiv_fin_of_ne _ _ hcne, fvMul_fin, fvAdd_fin]
  · simp only [min_p, p_diff]; nlinarith
  · simp only [min_p, p_diff]; nlinarith
  · intro ht; rw [ht, sub_self, zero_div, zero_mul, add_zero, min_p]
  · intro ht
    rw [ht, div_self hcne, one_mul]
    simp only [min_p, p_diff]
    norm_num

/-- Witness for C6 at the default penetrance table `[[0,0,1],[0,0,1],[1,1,2]]`
(min 0, max 2). -/
theorem rescaleStep_bounds_witness :
    matMin default_pen_table ≠ matMax default_pen_table ∧
    (∀ r c, ∃ q : ℚ,
      rescaleStep default_pen_table r c = .fin q ∧
      1/100 ≤ q ∧ q ≤ 99/100 ∧
      (default_pen_table r c = matMin default_pen_table → q = 1/100) ∧
      (default_pen_table r c = matMax default_pen_table → q = 99/100)) :=
  ⟨by norm_num [matMin, matMax, rowMin, rowMax, default_pen_table, qmin, qmax],
   rescaleStep_bounds default_pen_table
     (by norm_num [matMin, matMax, rowMin, rowMax, default_pen_table, qmin, qmax])⟩

/-- C7: construction validation raises a `ValueError` exactly when the table
shape is not 3x3 or a supplied variant does not have exactly one alternate
allele; with no variants supplied and a 3x3 table it succeeds, synthesizing
the defaults `rs1` (ref "A", alt "a") and `rs2` (ref "B", alt "b").
`from_model` reaches this same validation through the class constructor. -/
theorem validate_params_spec (t : List (List ℚ)) (s1 s2 : Option Variant) :
    ((∃ e, validate_params t s1 s2 = .error e) ↔
      (shape33 t = false ∨
        (∃ v, s1 = some v ∧ v.alt.length ≠ 1) ∨
        (∃ v, s2 = some v ∧ v.alt.length ≠ 1))) ∧
    (shape33 t = true →
      validate_params t none none = .ok (t, default_snp1, default_snp2)) := by
  constructor
  · cases hs : shape33 t with
    | false =>
      simp [validate_params, hs]
    | true =>
      simp only [validate_params, hs]
      rcases s1 with _ | v1 <;> rcases s2 with _ | v2 <;>
        simp only [Option.getD_some, Option.getD_none, default_snp1, default_snp2]
      · simp
      · by_cases h2 : v2.alt.length = 1 <;> simp [h2]
      · by_cases h1 : v1.alt.length = 1 <;> simp [h1]
      · by_cases h1 : v1.alt.length = 1 <;> by_cases h2 : v2.alt.length = 1 <;>
          simp [h1, h2]
  · intro hs
    simp [validate_params, hs, default_snp1, default_snp2]

/-- C2: the re-aligning shuffle the spec demands does not exist in the code.
At a concrete valid input the run raises `TypeError` at line 220's
`pd.concat(snp1_case_array, snp1_control_array)` before the shuffle line is
ever reached; and the shuffle statement itself (lines 223-226) reads only the
outcome series — permuting it alone, as the second conjunct shows on a
two-row example, with the genotype columns nowhere in its inputs. -/
theorem generate_case_control_shuffle_unreached :
    generate_case_control default_sim (fun _ n => List.replicate n 0)
        (fun n => List.range n) 1 1 (3/10) (3/10) =
      .error (.typeError "cannot concatenate object of type Genotype; only Series and DataFrame objs are valid") ∧
    outcome_series 1 1 [1, 0] = ["Control", "Case"] := by
  constructor
  · norm_num [generate_case_control, np_random_choice, np_choice_check, flattenP,
      prob_gt_given_case, prob_gt_given_control, prob_case, prob_control,
      rescaleStep, default_sim, default_pen_table, matMin, matMax, rowMin, rowMax,
      qmin, qmax, qabs, min_p, p_diff, atol, hweProbs, prob_gt, fvSum9,
      fvSumFlat, fvIsNeg, fvSumFarFromOne, fvDiv, fvMul, fvAdd, fvSub,
      pd_concat_two, get_gt_array,
      List.finRange, List.any, List.foldl, List.map,
      Matrix.cons_val_zero, Matrix.cons_val_one, Matrix.head_cons,
      Matrix.cons_val_two, Matrix.tail_cons]
  · rfl

end PandasGenomics

namespace PandasGenomics

/-- C8: the Bayesian inversion has no zero-denominator guard.  At the
concrete configuration `zero_prob_case_table` with `maf1 = 2`, `maf2 = 0`
(values the code never validates, see C9), the aggregate `prob_case` is
exactly zero and the unguarded division still runs: the posterior cell
(0,0) becomes `+inf` and cell (1,0) becomes IEEE `0/0 = nan`, with no
numerical-degeneracy error raised at the inversion step — the inf/NaN
weights flow on to `np.random.choice`. -/
theorem prob_case_zero_unguarded :
    prob_case (rescaleStep zero_prob_case_table) (prob_gt 2 0) = .fin 0 ∧
    prob_gt_given_case (rescaleStep zero_prob_case_table) (prob_gt 2 0) 0 0 = FV.pinf ∧
    prob_gt_given_case (rescaleStep zero_prob_case_table) (prob_gt 2 0) 1 0 = FV.nan := by
  refine ⟨?_, ?_, ?_⟩ <;>
    norm_num +decide [prob_case, prob_gt_given_case, rescaleStep, zero_prob_case_table,
      matMin, matMax, rowMin, rowMax, qmin, qmax, min_p, p_diff, hweProbs, prob_gt,
      fvSum9, fvDiv, fvMul, fvAdd]

end PandasGenomics

namespace PandasGenomics

theorem np_choice_cases (p : Fin 9 → FV) (n : ℕ)
    (draw : (Fin 9 → FV) → ℕ → List (Fin 9)) :
    np_random_choice p n draw = .ok (draw p n) ∨
    np_random_choice p n draw = .error (.valueError "probabilities are not non-negative") ∨
    np_random_choice p n draw = .error (.valueError "probabilities do not sum to 1") := by
  by_cases hA : ((List.finRange 9).any (fun i => fvIsNeg (p i))) = true
  · right; left; simp [np_random_choice, np_choice_check, hA]
  · by_cases hB : fvSumFarFromOne (fvSumFlat p) = true
    · right; right; simp [np_random_choice, np_choice_check, hA, hB]
    · left; simp [np_random_choice, np_choice_check, hA, hB]

/-- C9 (amended): `generate_case_control` raises its synchronous
precondition ValueError exactly when `n_cases < 1` or `n_controls < 0`,
whatever the maf arguments are — the maf bounds are never validated.  In
particular `n_controls = 0` with `n_cases ≥ 1` passes the check. -/
theorem generate_case_control_precondition (sim : BialleleicSimulation)
    (draw : (Fin 9 → FV) → ℕ → List (Fin 9)) (order : ℕ → List ℕ)
    (n_cases n_controls : ℤ) (maf1 maf2 : ℚ) :
    (generate_case_control sim draw order n_cases n_controls maf1 maf2 =
        .error (.valueError "Simulation must include at least one case and at least one control") ↔
      (n_cases < 1 ∨ n_controls < 0)) := by
  simp only [generate_case_control]
  split
  · rename_i h
    simp [h]
  · rename_i h
    refine iff_of_false ?_ h
    rcases np_choice_cases (flattenP (prob_gt_given_case (rescaleStep sim.pen_table)
        (prob_gt maf1 maf2))) n_cases.toNat draw with h1 | h1 | h1 <;> rw [h1]
    · rcases np_choice_cases (flattenP (prob_gt_given_control (rescaleStep sim.pen_table)
          (prob_gt maf1 maf2))) n_controls.toNat draw with h2 | h2 | h2 <;> rw [h2]
      · simp [pd_concat_two]
      · simp
      · simp
    · simp
    · simp

/-- C9 counterexample: `maf1 = 1` lies outside the open interval (0,1), a
precondition violation, yet no configuration error is reported — the run
proceeds past the argument check (which reads only the counts) and ends in
the unrelated concat `TypeError` of the unfinished assembly. -/
theorem precondition_check_ignores_maf :
    ¬((0:ℚ) < 1 ∧ (1:ℚ) < 1) ∧
    generate_case_control default_sim (fun _ n => List.replicate n 0)
        (fun n => List.range n) 1 1 1 (3/10) =
      .error (.typeError "cannot concatenate object of type Genotype; only Series and DataFrame objs are valid") := by
  constructor
  · norm_num
  · norm_num [generate_case_control, np_random_choice, np_choice_check, flattenP,
      prob_gt_given_case, prob_gt_given_control, prob_case, prob_control,
      rescaleStep, default_sim, default_pen_table, matMin, matMax, rowMin, rowMax,
      qmin, qmax, qabs, min_p, p_diff, atol, hweProbs, prob_gt, fvSum9,
      fvSumFlat, fvIsNeg, fvSumFarFromOne, fvDiv, fvMul, fvAdd, fvSub,
      pd_concat_two, get_gt_array,
      List.finRange, List.any, List.foldl, List.map,
      Matrix.cons_val_zero, Matrix.cons_val_one, Matrix.head_cons,
      Matrix.cons_val_two, Matrix.tail_cons]

end PandasGenomics

namespace PandasGenomics

/-- C10: a constant penetrance table passes construction validation (it is
built, for instance, by `from_model` with `main1 = main2 = interaction = 0`,
which yields the all-baseline table, and a 3x3 all-`b` table passes
`_validate_params`), yet Step-1 of `generate_case_control` divides by the
zero range `max - min = 0`: every cell of the rescaled table is IEEE
`0/0 = nan`, the NaN propagates into every case-posterior sampling weight,
and numpy's `choice` validation accepts the all-NaN weight vector without
raising (NaN comparisons are false), so no error is raised at that point. -/
theorem constant_pen_table_nan_flow (b : ℚ) (r c : Fin 3) :
    from_model_pen_table RECESSIVE RECESSIVE b 0 0 0 r c = .fin b ∧
    rescaleStep (fun _ _ => b) r c = FV.nan ∧
    prob_gt_given_case (rescaleStep (fun _ _ => b)) (prob_gt (3/10) (3/10)) r c = FV.nan ∧
    np_choice_check (flattenP (prob_gt_given_case (rescaleStep (fun _ _ => b))
      (prob_gt (3/10) (3/10)))) = .ok () ∧
    validate_params (List.replicate 3 (List.replicate 3 b)) none none =
      .ok (List.replicate 3 (List.replicate 3 b), default_snp1, default_snp2) := by
  have hmin : rowMin RECESSIVE = 0 := by norm_num [rowMin, RECESSIVE, qmin]
  have hmax : rowMax RECESSIVE = 1 := by norm_num [rowMax, RECESSIVE, qmax]
  have hconst : ∀ r c : Fin 3, rescaleStep (fun _ _ => b) r c = FV.nan := by
    intro r c
    simp [rescaleStep, matMin, matMax, rowMin, rowMax, qmin, qmax, sub_self]
  have hpost : ∀ r c : Fin 3,
      prob_gt_given_case (rescaleStep (fun _ _ => b)) (prob_gt (3/10) (3/10)) r c = FV.nan := by
    intro r c
    simp [prob_gt_given_case, prob_case, fvSum9, hconst]
  refine ⟨?_, hconst r c, hpost r c, ?_, ?_⟩
  · simp [from_model_pen_table, normalizeEff, hmin, hmax]
  · norm_num [np_choice_check, fvSumFlat, fvIsNeg, fvSumFarFromOne, flattenP,
      hpost, List.finRange, List.any, List.foldl, List.map]
  · norm_num [validate_params, shape33, default_snp1, default_snp2]

end PandasGenomics
